import Mathlib

/-
  Verification development for the swingvisualizer election pipeline.

  Shallow embedding of the processing stages:
  - processing/02_clean_elections.py   (per-cycle aggregator, wide format)
  - processing/04_calculate_swings.py  (swing calculator, join integrity, loader dedup)
  - processing/06_calculate_trends.py  (trend metrics and classification)
  - processing/fix_2024_fips.py and processing/utils/county_matcher.py
    (county-name normalization)

  Conventions: pandas/numpy float arithmetic is modelled exactly over the
  rationals; Series.round(2) uses numpy rounding, which is round-half-to-even,
  modelled by rhe below; NaN cells produced by 0/0 divisions and the
  subsequent fillna(0) are modelled with Option and getD.
-/

namespace SwingViz

/-- Round-half-to-even of a rational to an integer, the rounding mode used by
numpy (np.round) and hence by pandas Series.round. Ties (fractional part
exactly one half) go to the even neighbour. -/
def rhe (q : ℚ) : ℤ :=
  if Int.fract q < 1/2 then ⌊q⌋
  else if 1/2 < Int.fract q then ⌊q⌋ + 1
  else if ⌊q⌋ % 2 = 0 then ⌊q⌋ else ⌊q⌋ + 1

/-- Rounding a rational to 2 decimal places, half to even: models
Series.round(2) on an exact value. -/
def round2 (q : ℚ) : ℚ := ((rhe (q * 100) : ℤ) : ℚ) / 100

/-- Complement identity of half-even rounding: for an even integer N,
rounding x and rounding N - x always add back to N, ties included. This is
the arithmetic core behind dem_share + rep_share = 100. -/
theorem rhe_add_compl (N : ℤ) (hN : N % 2 = 0) (x : ℚ) :
    rhe x + rhe ((N : ℚ) - x) = N := by
  have hfr0 : Int.fract ((N : ℚ) - x) = Int.fract (-x) := by
    rw [sub_eq_add_neg, Int.fract_int_add]
  by_cases hx : Int.fract x = 0
  · have hxeq : x = ((⌊x⌋ : ℤ) : ℚ) := by
      have h := Int.self_sub_fract x
      rw [hx, sub_zero] at h
      exact h
    have hneg : Int.fract (-x) = 0 := by
      rw [hxeq, ← Int.cast_neg, Int.fract_intCast]
    have hfloor : ⌊(N : ℚ) - x⌋ = N - ⌊x⌋ := by
      conv_lhs => rw [hxeq, ← Int.cast_sub]
      rw [Int.floor_intCast]
    have hhalf : (0 : ℚ) < 1/2 := by norm_num
    unfold rhe
    rw [hfr0, hneg, hx, hfloor]
    rw [if_pos hhalf, if_pos hhalf]
    omega
  · have h1 : Int.fract (-x) = 1 - Int.fract x := Int.fract_neg hx
    have hself : ((N : ℚ) - x) - Int.fract ((N : ℚ) - x) = ((⌊(N : ℚ) - x⌋ : ℤ) : ℚ) :=
      Int.self_sub_fract _
    have hselfx : x - Int.fract x = ((⌊x⌋ : ℤ) : ℚ) := Int.self_sub_fract x
    have hfl : ⌊(N : ℚ) - x⌋ = N - ⌊x⌋ - 1 := by
      have hcast : ((⌊(N : ℚ) - x⌋ : ℤ) : ℚ) = ((N - ⌊x⌋ - 1 : ℤ) : ℚ) := by
        rw [hfr0, h1] at hself
        push_cast
        push_cast at hself hselfx
        linarith
      exact_mod_cast hcast
    have hnn : 0 ≤ Int.fract x := Int.fract_nonneg x
    have hlt : Int.fract x < 1 := Int.fract_lt_one x
    unfold rhe
    rw [hfr0, h1, hfl]
    split_ifs <;> first | omega | (exfalso; linarith)

/-- Half-even rounding of an integer value is that integer. -/
theorem rhe_intCast (n : ℤ) : rhe ((n : ℤ) : ℚ) = n := by
  unfold rhe
  rw [Int.fract_intCast, Int.floor_intCast]
  norm_num

/- ========================================================================
   Party labels used throughout the pipeline, as named constants.
   ======================================================================== -/

def sDEMOCRAT : String := "DEMOCRAT"

def sREPUBLICAN : String := "REPUBLICAN"

def sUNKNOWN : String := "UNKNOWN"

/- ========================================================================
   Per-Cycle Aggregator: create_wide_format
   (02_clean_elections.py lines 315-364; the identical share/margin/winner
   block also appears in fix_2024_fips.py lines 209-222).
   Only the derived columns matter here; D and R are the DEMOCRAT and
   REPUBLICAN vote counts of one county row after the pivot. Division by a
   zero major-party total produces NaN in pandas, modelled as none, and the
   later fillna(0) is modelled as getD 0.
   ======================================================================== -/

/-- One output row of create_wide_format, derived columns only. -/
structure WideRow where
  major_party_votes : ℕ
  dem_share : ℚ
  rep_share : ℚ
  margin : ℚ
  winner : String
deriving DecidableEq

/-- Column dem_share before fillna: (DEMOCRAT / major_party_votes * 100).round(2),
which is NaN (none) when the major-party total is zero. -/
def dem_share_opt (D R : ℕ) : Option ℚ :=
  if D + R = 0 then none
  else some (round2 ((D : ℚ) / ((D : ℚ) + (R : ℚ)) * 100))

/-- Column rep_share before fillna. -/
def rep_share_opt (D R : ℕ) : Option ℚ :=
  if D + R = 0 then none
  else some (round2 ((R : ℚ) / ((D : ℚ) + (R : ℚ)) * 100))

/-- Column margin before fillna: (dem_share - rep_share).round(2), NaN when
the shares are NaN. -/
def margin_opt (D R : ℕ) : Option ℚ :=
  match dem_share_opt D R, rep_share_opt D R with
  | some a, some b => some (round2 (a - b))
  | _, _ => none

/-- One row of create_wide_format output: major_party_votes, the two shares
and the margin after fillna(0), and the winner column computed by the
row-wise lambda: DEMOCRAT exactly when the DEMOCRAT count strictly exceeds
the REPUBLICAN count, else REPUBLICAN. -/
def create_wide_format_row (D R : ℕ) : WideRow :=
  { major_party_votes := D + R
    dem_share := (dem_share_opt D R).getD 0
    rep_share := (rep_share_opt D R).getD 0
    margin := (margin_opt D R).getD 0
    winner := if R < D then sDEMOCRAT else sREPUBLICAN }

/-- C2: for every aggregated county row, dem_share + rep_share = 100 exactly
whenever major_party_votes > 0 (shares rounded half-even to 2 decimals), and
dem_share, rep_share and margin are all exactly 0 when major_party_votes = 0. -/
theorem shares_sum_and_zero (D R : ℕ) :
    (0 < D + R →
      (create_wide_format_row D R).dem_share + (create_wide_format_row D R).rep_share = 100) ∧
    (D + R = 0 →
      (create_wide_format_row D R).dem_share = 0 ∧
      (create_wide_format_row D R).rep_share = 0 ∧
      (create_wide_format_row D R).margin = 0) := by
  constructor
  · intro hpos
    have hne : D + R ≠ 0 := Nat.pos_iff_ne_zero.mp hpos
    have hcast : ((D : ℚ) + (R : ℚ)) ≠ 0 := by
      have : (0 : ℚ) < (D : ℚ) + (R : ℚ) := by
        have : (0 : ℚ) < ((D + R : ℕ) : ℚ) := by exact_mod_cast hpos
        push_cast at this
        linarith
      linarith
    simp only [create_wide_format_row, dem_share_opt, rep_share_opt, if_neg hne,
      Option.getD_some]
    set x : ℚ := (D : ℚ) / ((D : ℚ) + (R : ℚ)) * 100 * 100 with hxdef
    have key : (R : ℚ) / ((D : ℚ) + (R : ℚ)) * 100 * 100 = ((10000 : ℤ) : ℚ) - x := by
      rw [hxdef]
      field_simp
      ring
    have hmain := rhe_add_compl 10000 (by norm_num) x
    unfold round2
    rw [key]
    have hcast2 : ((rhe x : ℤ) : ℚ) + ((rhe (((10000 : ℤ) : ℚ) - x) : ℤ) : ℚ) = ((10000 : ℤ) : ℚ) := by
      exact_mod_cast hmain
    push_cast at hcast2 ⊢
    linarith
  · intro hzero
    simp [create_wide_format_row, dem_share_opt, rep_share_opt, margin_opt, hzero]

/-- C2 witness: a county with 3 Democratic and 1 Republican votes has shares
summing to exactly 100, and a county with no major-party votes has both
shares and the margin equal to 0. -/
theorem shares_sum_and_zero_witness :
    (create_wide_format_row 3 1).dem_share + (create_wide_format_row 3 1).rep_share = 100 ∧
    (create_wide_format_row 0 0).dem_share = 0 ∧
    (create_wide_format_row 0 0).rep_share = 0 ∧
    (create_wide_format_row 0 0).margin = 0 :=
  ⟨(shares_sum_and_zero 3 1).1 (by norm_num), (shares_sum_and_zero 0 0).2 rfl⟩

/-- C7: the winner column is always DEMOCRAT or REPUBLICAN, it is DEMOCRAT
exactly when the Democratic count strictly exceeds the Republican count, and
on exact vote equality the winner is REPUBLICAN. -/
theorem winner_total_and_tiebreak (D R : ℕ) :
    ((create_wide_format_row D R).winner = sDEMOCRAT ∨
      (create_wide_format_row D R).winner = sREPUBLICAN) ∧
    ((create_wide_format_row D R).winner = sDEMOCRAT ↔ R < D) ∧
    (create_wide_format_row D D).winner = sREPUBLICAN := by
  refine ⟨?_, ?_, ?_⟩
  · by_cases h : R < D
    · left; simp [create_wide_format_row, if_pos h]
    · right; simp [create_wide_format_row, if_neg h]
  · constructor
    · intro hw
      by_contra hcon
      rw [create_wide_format_row] at hw
      simp only [if_neg hcon] at hw
      exact absurd hw (by decide)
    · intro h
      simp [create_wide_format_row, if_pos h]
  · simp [create_wide_format_row]

/- ========================================================================
   Trend & Classification Engine (06_calculate_trends.py).
   ======================================================================== -/

def sSOLID_DEM : String := "SOLID_DEM"

def sSOLID_REP : String := "SOLID_REP"

def sLEAN_DEM : String := "LEAN_DEM"

def sLEAN_REP : String := "LEAN_REP"

def sSWING : String := "SWING"

def sCOMPETITIVE_DEM : String := "COMPETITIVE_DEM"

def sCOMPETITIVE_REP : String := "COMPETITIVE_REP"

def sINSUFFICIENT_DATA : String := "INSUFFICIENT_DATA"

def sTRENDING_DEM : String := "TRENDING_DEM"

def sTRENDING_REP : String := "TRENDING_REP"

def sSTABLE : String := "STABLE"

/-- Function classify_county (06_calculate_trends.py lines 203-242): the
priority-ordered classification rules, first match wins. The Python literals
0.2 and 0.4 are the exact rationals 1/5 and 2/5. -/
def classify_county (avg_margin margin_std flip_rate close_rate : ℚ) : String :=
  if |avg_margin| > 15 ∧ margin_std < 8 ∧ flip_rate < 1/5 then
    if 0 < avg_margin then sSOLID_DEM else sSOLID_REP
  else if |avg_margin| > 5 ∧ flip_rate < 2/5 then
    if 0 < avg_margin then sLEAN_DEM else sLEAN_REP
  else if flip_rate ≥ 2/5 ∨ close_rate > 60 then
    sSWING
  else if |avg_margin| ≤ 5 then
    if 0 < avg_margin then sCOMPETITIVE_DEM else sCOMPETITIVE_REP
  else
    if 0 < avg_margin then sLEAN_DEM else sLEAN_REP

/-- Variance form of classify_county: np.std(margins) is the square root of
the population variance margin_var carried by the trend record, so the
source comparison np.std(margins) < 8 is expressed as margin_var < 64. The
equivalence with classify_county at margin_var = margin_std ^ 2 is proved in
classification_priority_rules. -/
def classify_from_var (avg_margin margin_var flip_rate close_rate : ℚ) : String :=
  if |avg_margin| > 15 ∧ margin_var < 64 ∧ flip_rate < 1/5 then
    if 0 < avg_margin then sSOLID_DEM else sSOLID_REP
  else if |avg_margin| > 5 ∧ flip_rate < 2/5 then
    if 0 < avg_margin then sLEAN_DEM else sLEAN_REP
  else if flip_rate ≥ 2/5 ∨ close_rate > 60 then
    sSWING
  else if |avg_margin| ≤ 5 then
    if 0 < avg_margin then sCOMPETITIVE_DEM else sCOMPETITIVE_REP
  else
    if 0 < avg_margin then sLEAN_DEM else sLEAN_REP

/-- One row of a county history, as consumed by calculate_county_trends:
year, margin and winner from the combined table; swing when that column is
present. Missing cells are none (pandas NaN). -/
structure CycleRow where
  year : ℤ
  margin : Option ℚ
  winner : Option String
  swing : Option ℚ
deriving DecidableEq

/-- Insertion step for sorting a county history by year. -/
def insertByYear (r : CycleRow) : List CycleRow → List CycleRow
  | [] => [r]
  | x :: xs => if r.year ≤ x.year then r :: x :: xs else x :: insertByYear r xs

/-- Sorting a county history ascending by year: models
county_history.sort_values(year). -/
def sortRows : List CycleRow → List CycleRow
  | [] => []
  | r :: rest => insertByYear r (sortRows rest)

/-- Winner column with fillna(UNKNOWN): a row whose winner cell is missing
contributes the sentinel UNKNOWN to the winner sequence. -/
def fillWinners (rows : List CycleRow) : List String :=
  rows.map (fun r => (r.winner).getD sUNKNOWN)

/-- Count of adjacent positions in the winner sequence where the label
changes: sum over i of (winners[i] != winners[i-1]). -/
def countFlips : List String → ℕ
  | a :: b :: rest => (if a = b then 0 else 1) + countFlips (b :: rest)
  | _ => 0

/-- Arithmetic mean, np.mean; division by a zero length yields 0 in ℚ and is
never reached on the pipeline inputs (three or more cycles). -/
def meanQ (l : List ℚ) : ℚ := l.sum / (l.length : ℚ)

/-- Insertion step for sorting rationals ascending. -/
def insertQ (q : ℚ) : List ℚ → List ℚ
  | [] => [q]
  | x :: xs => if q ≤ x then q :: x :: xs else x :: insertQ q xs

/-- Insertion sort of rationals, ascending. -/
def sortQ : List ℚ → List ℚ
  | [] => []
  | q :: rest => insertQ q (sortQ rest)

/-- Median, np.median: middle element of the sorted list for odd length,
mean of the two middle elements for even length. -/
def medianQ (l : List ℚ) : ℚ :=
  let s := sortQ l
  if l.length % 2 = 1 then s.getD (l.length / 2) 0
  else (s.getD (l.length / 2 - 1) 0 + s.getD (l.length / 2) 0) / 2

/-- Population variance, the square of np.std. -/
def varQ (l : List ℚ) : ℚ := meanQ (l.map (fun x => (x - meanQ l) ^ 2))

/-- Least-squares slope of np.polyfit(xs, ys, 1): the usual closed form; a
degenerate design matrix (all xs equal) is modelled as slope 0 and never
arises for three or more distinct election years. -/
def slopeQ (xs ys : List ℚ) : ℚ :=
  let n : ℚ := (xs.length : ℚ)
  let sx := xs.sum
  let sy := ys.sum
  let sxy := ((xs.zip ys).map (fun p => p.1 * p.2)).sum
  let sxx := (xs.map (fun x => x ^ 2)).sum
  let den := n * sxx - sx ^ 2
  if den = 0 then 0 else (n * sxy - sx * sy) / den

/-- Maximum of a nonempty rational list, np.max. -/
def listMaxQ (l : List ℚ) : ℚ := l.foldl max (l.headD 0)

/-- Table NATIONAL_WINNERS of calculate_bellwether_score: national
popular-vote winner per cycle; cycles outside the table give none. -/
def nationalWinner (y : ℤ) : Option String :=
  if y = 2000 then some sDEMOCRAT
  else if y = 2004 then some sREPUBLICAN
  else if y = 2008 then some sDEMOCRAT
  else if y = 2012 then some sDEMOCRAT
  else if y = 2016 then some sDEMOCRAT
  else if y = 2020 then some sDEMOCRAT
  else if y = 2024 then some sREPUBLICAN
  else none

/-- Function calculate_bellwether_score: over the cycles present in the
national table, the percentage whose county winner (UNKNOWN when missing)
equals the national winner; 0 when no cycle is comparable. -/
def bellwetherScore (rows : List CycleRow) : ℚ :=
  let results := rows.filterMap
    (fun r => (nationalWinner r.year).map (fun nw => decide ((r.winner).getD sUNKNOWN = nw)))
  if 0 < results.length then ((results.count true : ℚ) / (results.length : ℚ)) * 100 else 0

/-- Derived fields of the trend record, present only for three or more
cycles of data. -/
structure TrendDetails where
  total_flips : ℕ
  flip_rate : ℚ
  avg_margin : ℚ
  median_margin : ℚ
  margin_var : ℚ
  dem_win_pct : ℚ
  rep_win_pct : ℚ
  trajectory : ℚ
  trajectory_direction : String
  avg_swing_magnitude : ℚ
  max_swing : ℚ
  close_election_rate : ℚ
  avg_competitiveness : ℚ
  bellwether_score : ℚ
deriving DecidableEq

/-- Output of calculate_county_trends: the base fields always present, the
classification, and the other derived fields only when present (the Python
dict carries them only in the three-or-more-cycles case). -/
structure TrendResult where
  years_with_data : ℕ
  first_year : ℤ
  last_year : ℤ
  classification : String
  details : Option TrendDetails
deriving DecidableEq

/-- Metric block of calculate_county_trends (06_calculate_trends.py lines
116-198) for a sorted history of three or more rows: margins and winners
with fillna(0) and fillna(UNKNOWN), flip counting over adjacent positions of
the sorted sequence, win percentages over known winners only, the normalized
regression slope, swing magnitudes when the swing column exists, closeness
metrics, and the bellwether score. -/
def trendDetails (rows : List CycleRow) (hasSwing : Bool) : TrendDetails :=
  let margins := rows.map (fun r => (r.margin).getD 0)
  let winners := fillWinners rows
  let flips := countFlips winners
  let frate : ℚ := if 1 < winners.length then (flips : ℚ) / ((winners.length : ℚ) - 1) else 0
  let demWins := winners.count sDEMOCRAT
  let repWins := winners.count sREPUBLICAN
  let totalKnown := demWins + repWins
  let years := rows.map (fun r => r.year)
  let minY : ℤ := (years.min?).getD 0
  let xs : List ℚ := years.map (fun y => ((y : ℚ) - (minY : ℚ)) / 4)
  let slope := slopeQ xs margins
  let sw := rows.map (fun r => (r.swing).getD 0)
  { total_flips := flips
    flip_rate := frate
    avg_margin := meanQ margins
    median_margin := medianQ margins
    margin_var := varQ margins
    dem_win_pct := if 0 < totalKnown then (demWins : ℚ) / ((totalKnown : ℕ) : ℚ) * 100 else 0
    rep_win_pct := if 0 < totalKnown then (repWins : ℚ) / ((totalKnown : ℕ) : ℚ) * 100 else 0
    trajectory := slope
    trajectory_direction :=
      if slope > 2 then sTRENDING_DEM else if slope < -2 then sTRENDING_REP else sSTABLE
    avg_swing_magnitude :=
      if hasSwing ∧ sw.length ≠ 0 then meanQ (sw.map (fun s => |s|)) else 0
    max_swing :=
      if hasSwing ∧ sw.length ≠ 0 then listMaxQ (sw.map (fun s => |s|)) else 0
    close_election_rate :=
      ((margins.countP (fun m => decide (|m| < 5)) : ℚ) / (margins.length : ℚ)) * 100
    avg_competitiveness := meanQ (margins.map (fun m => |m|))
    bellwether_score := bellwetherScore rows }

/-- Function calculate_county_trends (06_calculate_trends.py lines 92-200):
sort the history by year; with fewer than 3 cycles return only the base
fields and classification INSUFFICIENT_DATA; otherwise compute the full
metric block and classify it on (avg_margin, margin variance, flip_rate,
close_election_rate). -/
def calculate_county_trends (history : List CycleRow) (hasSwing : Bool) : TrendResult :=
  let rows := sortRows history
  if history.length < 3 then
    { years_with_data := history.length
      first_year := ((history.map (fun r => r.year)).min?).getD 0
      last_year := ((history.map (fun r => r.year)).max?).getD 0
      classification := sINSUFFICIENT_DATA
      details := none }
  else
    let d := trendDetails rows hasSwing
    { years_with_data := history.length
      first_year := ((history.map (fun r => r.year)).min?).getD 0
      last_year := ((history.map (fun r => r.year)).max?).getD 0
      classification :=
        classify_from_var d.avg_margin d.margin_var d.flip_rate d.close_election_rate
      details := some d }

/-- C1: the classification is the first matching rule of the priority list,
evaluated top to bottom on the tuple (avg_margin, margin deviation,
flip_rate, close_election_rate): the two spec examples hold for every value
of close_election_rate, each rule fires exactly when the earlier rules do
not match, the variance form agrees with the standard-deviation form, and
the trend record of any county with a full metric block is classified by
exactly this rule function applied to its own metric tuple. -/
theorem classification_priority_rules :
    (∀ c : ℚ, classify_county (-20) 5 0 c = sSOLID_REP) ∧
    (∀ c : ℚ, classify_county 3 9 (1/2) c = sSWING) ∧
    (∀ a s f c : ℚ, (|a| > 15 ∧ s < 8 ∧ f < 1/5) →
      classify_county a s f c = if 0 < a then sSOLID_DEM else sSOLID_REP) ∧
    (∀ a s f c : ℚ, ¬(|a| > 15 ∧ s < 8 ∧ f < 1/5) → (|a| > 5 ∧ f < 2/5) →
      classify_county a s f c = if 0 < a then sLEAN_DEM else sLEAN_REP) ∧
    (∀ a s f c : ℚ, ¬(|a| > 15 ∧ s < 8 ∧ f < 1/5) → ¬(|a| > 5 ∧ f < 2/5) →
      (f ≥ 2/5 ∨ c > 60) → classify_county a s f c = sSWING) ∧
    (∀ a s f c : ℚ, ¬(|a| > 15 ∧ s < 8 ∧ f < 1/5) → ¬(|a| > 5 ∧ f < 2/5) →
      ¬(f ≥ 2/5 ∨ c > 60) → |a| ≤ 5 →
      classify_county a s f c = if 0 < a then sCOMPETITIVE_DEM else sCOMPETITIVE_REP) ∧
    (∀ a s f c : ℚ, ¬(|a| > 15 ∧ s < 8 ∧ f < 1/5) → ¬(|a| > 5 ∧ f < 2/5) →
      ¬(f ≥ 2/5 ∨ c > 60) → ¬(|a| ≤ 5) →
      classify_county a s f c = if 0 < a then sLEAN_DEM else sLEAN_REP) ∧
    (∀ a s f c : ℚ, 0 ≤ s → classify_from_var a (s ^ 2) f c = classify_county a s f c) ∧
    (∀ (history : List CycleRow) (hasSwing : Bool) (d : TrendDetails),
      (calculate_county_trends history hasSwing).details = some d →
      (calculate_county_trends history hasSwing).classification =
        classify_from_var d.avg_margin d.margin_var d.flip_rate d.close_election_rate) := by
  refine ⟨?_, ?_, ?_, ?_, ?_, ?_, ?_, ?_, ?_⟩
  · intro c
    have habs : |(-20 : ℚ)| = 20 := by
      rw [abs_of_nonpos (by norm_num)]; norm_num
    unfold classify_county
    rw [if_pos ⟨by rw [habs]; norm_num, by norm_num, by norm_num⟩, if_neg (by norm_num)]
  · intro c
    have habs : |(3 : ℚ)| = 3 := abs_of_nonneg (by norm_num)
    have h1 : ¬(|(3 : ℚ)| > 15 ∧ (9 : ℚ) < 8 ∧ (1/2 : ℚ) < 1/5) := by
      rw [habs]; norm_num
    have h2 : ¬(|(3 : ℚ)| > 5 ∧ (1/2 : ℚ) < 2/5) := by
      rw [habs]; norm_num
    unfold classify_county
    rw [if_neg h1, if_neg h2, if_pos (Or.inl (by norm_num))]
  · intro a s f c h
    unfold classify_county
    rw [if_pos h]
  · intro a s f c h1 h2
    unfold classify_county
    rw [if_neg h1, if_pos h2]
  · intro a s f c h1 h2 h3
    unfold classify_county
    rw [if_neg h1, if_neg h2, if_pos h3]
  · intro a s f c h1 h2 h3 h4
    unfold classify_county
    rw [if_neg h1, if_neg h2, if_neg h3, if_pos h4]
  · intro a s f c h1 h2 h3 h4
    unfold classify_county
    rw [if_neg h1, if_neg h2, if_neg h3, if_neg h4]
  · intro a s f c hs
    have hiff : ((s ^ 2 : ℚ) < 64) ↔ (s < 8) := by
      constructor
      · intro h; nlinarith
      · intro h; nlinarith
    unfold classify_from_var classify_county
    simp only [hiff]
  · intro history hasSwing d hd
    by_cases h3 : history.length < 3
    · simp only [calculate_county_trends, if_pos h3] at hd
      exact Option.noConfusion hd
    · simp only [calculate_county_trends, if_neg h3, Option.some.injEq] at hd
      simp only [calculate_county_trends, if_neg h3]
      rw [hd]

/-- C1 witness: the two spec examples at concrete close_election_rate
values, derived from the rule theorem with its hypotheses discharged. -/
theorem classification_priority_rules_witness :
    classify_county (-20) 5 0 37 = sSOLID_REP ∧ classify_county 3 9 (1/2) 0 = sSWING := by
  constructor
  · have h := classification_priority_rules.2.2.1 (-20) 5 0 37
      ⟨by rw [abs_of_nonpos (by norm_num)]; norm_num, by norm_num, by norm_num⟩
    rw [h, if_neg (by norm_num)]
  · exact classification_priority_rules.2.1 0

/-- C6: with fewer than 3 cycles of data the trend output carries
classification INSUFFICIENT_DATA and none of the other derived fields. -/
theorem insufficient_data_short_history (history : List CycleRow) (hasSwing : Bool)
    (h : history.length < 3) :
    (calculate_county_trends history hasSwing).classification = sINSUFFICIENT_DATA ∧
    (calculate_county_trends history hasSwing).details = none := by
  constructor <;> simp only [calculate_county_trends, if_pos h]

/-- Concrete two-cycle history used to exercise the insufficient-data rule. -/
def shortHistory : List CycleRow :=
  [⟨2016, some 3, some sDEMOCRAT, none⟩, ⟨2020, some (-2), some sREPUBLICAN, none⟩]

/-- C6 witness: a concrete two-cycle county gets INSUFFICIENT_DATA and no
derived fields. -/
theorem insufficient_data_short_history_witness :
    (calculate_county_trends shortHistory false).classification = sINSUFFICIENT_DATA ∧
    (calculate_county_trends shortHistory false).details = none :=
  insufficient_data_short_history shortHistory false (by decide)

/-- C10: in the full metric block, missing winners become the sentinel
UNKNOWN; total_flips counts every adjacent change of the filled winner
sequence (transitions to or from UNKNOWN included), while dem_win_pct and
rep_win_pct divide by the count of known-winner cycles only, both being 0
when no winner is known. -/
theorem trends_unknown_winner_policy (history : List CycleRow) (hasSwing : Bool)
    (d : TrendDetails)
    (hd : (calculate_county_trends history hasSwing).details = some d) :
    d.total_flips = countFlips (fillWinners (sortRows history)) ∧
    (0 < (fillWinners (sortRows history)).count sDEMOCRAT +
         (fillWinners (sortRows history)).count sREPUBLICAN →
      d.dem_win_pct = ((fillWinners (sortRows history)).count sDEMOCRAT : ℚ) /
        ((((fillWinners (sortRows history)).count sDEMOCRAT +
           (fillWinners (sortRows history)).count sREPUBLICAN : ℕ)) : ℚ) * 100 ∧
      d.rep_win_pct = ((fillWinners (sortRows history)).count sREPUBLICAN : ℚ) /
        ((((fillWinners (sortRows history)).count sDEMOCRAT +
           (fillWinners (sortRows history)).count sREPUBLICAN : ℕ)) : ℚ) * 100) ∧
    ((fillWinners (sortRows history)).count sDEMOCRAT +
     (fillWinners (sortRows history)).count sREPUBLICAN = 0 →
      d.dem_win_pct = 0 ∧ d.rep_win_pct = 0) := by
  by_cases h3 : history.length < 3
  · simp only [calculate_county_trends, if_pos h3] at hd
    exact Option.noConfusion hd
  · simp only [calculate_county_trends, if_neg h3, Option.some.injEq] at hd
    subst hd
    refine ⟨rfl, ?_, ?_⟩
    · intro hpos
      constructor
      · simp only [trendDetails]
        rw [if_pos hpos]
      · simp only [trendDetails]
        rw [if_pos hpos]
    · intro hzero
      constructor
      · simp only [trendDetails]
        rw [if_neg (by omega)]
      · simp only [trendDetails]
        rw [if_neg (by omega)]

/-- Concrete three-cycle history whose middle cycle has no winner cell. -/
def exampleHistoryUnknown : List CycleRow :=
  [⟨2000, some 10, some sDEMOCRAT, none⟩,
   ⟨2004, some 0, none, none⟩,
   ⟨2008, some 5, some sDEMOCRAT, none⟩]

/-- Derived fields computed for the history with the missing winner. -/
def exampleDetailsUnknown : TrendDetails :=
  ((calculate_county_trends exampleHistoryUnknown false).details).getD
    ⟨0, 0, 0, 0, 0, 0, 0, 0, sSTABLE, 0, 0, 0, 0, 0⟩

/-- C10 witness: with winners DEMOCRAT, missing, DEMOCRAT the two
transitions through the UNKNOWN sentinel both count as flips, yet the win
percentages are 100 and 0 because only the two known winners enter the
denominator. -/
theorem trends_unknown_winner_policy_witness :
    exampleDetailsUnknown.total_flips = 2 ∧
    exampleDetailsUnknown.dem_win_pct = 100 ∧
    exampleDetailsUnknown.rep_win_pct = 0 := by
  obtain ⟨h1, h2, h3⟩ := trends_unknown_winner_policy exampleHistoryUnknown false
    exampleDetailsUnknown (by rfl)
  obtain ⟨h4, h5⟩ := h2 (by decide)
  have hcD : (fillWinners (sortRows exampleHistoryUnknown)).count sDEMOCRAT = 2 := by decide
  have hcR : (fillWinners (sortRows exampleHistoryUnknown)).count sREPUBLICAN = 0 := by decide
  refine ⟨?_, ?_, ?_⟩
  · rw [h1]; decide
  · rw [h4, hcD, hcR]; norm_num
  · rw [h5, hcD, hcR]; norm_num

/- ========================================================================
   Swing Calculator (04_calculate_swings.py).
   The per-cycle CSV is modelled as a list of rows; fips is the 5-digit
   county code (read back from CSV as an integer).
   ======================================================================== -/

def sNO_CHANGE : String := "NO_CHANGE"

def sNO_FLIP : String := "NO_FLIP"

/-- One row of a per-cycle elections CSV, the columns selected by
calculate_two_party_swing. -/
structure ElectionRow where
  fips : ℕ
  county : String
  state : String
  state_po : String
  dem_share : ℚ
  rep_share : ℚ
  dem_votes : ℕ
  rep_votes : ℕ
  total_votes : ℕ
  winner : String
deriving DecidableEq

/-- One row of the swing table produced for a cycle pair. -/
structure SwingRow where
  fips : ℕ
  county : String
  state : String
  state_po : String
  dem_share_y1 : ℚ
  rep_share_y1 : ℚ
  dem_votes_y1 : ℕ
  rep_votes_y1 : ℕ
  total_votes_y1 : ℕ
  winner_y1 : String
  dem_share_y2 : ℚ
  rep_share_y2 : ℚ
  dem_votes_y2 : ℕ
  rep_votes_y2 : ℕ
  total_votes_y2 : ℕ
  winner_y2 : String
  swing : ℚ
  margin_change : ℚ
  swing_magnitude : ℚ
  swing_direction : String
  flipped : Bool
  flip_direction : String
  turnout_change : ℤ
  turnout_change_pct : Option ℚ
  year1 : ℤ
  year2 : ℤ
  period : String
deriving DecidableEq

/-- Derived columns for one matched county pair (04_calculate_swings.py
lines 154-225): all computations are element-wise over the joined table, so
each output row is a function of its own input pair. The turnout guard of
lines 207-220 assigns NaN (none) exactly to the rows with zero year-1 votes
and the rounded percentage to every other row; both pandas branches (the
loc-masked one and the blanket one taken when no zero exists) compute this
same per-row value. -/
def mkSwingRow (r1 r2 : ElectionRow) (year1 year2 : ℤ) : SwingRow :=
  { fips := r1.fips
    county := r1.county
    state := r1.state
    state_po := r1.state_po
    dem_share_y1 := r1.dem_share
    rep_share_y1 := r1.rep_share
    dem_votes_y1 := r1.dem_votes
    rep_votes_y1 := r1.rep_votes
    total_votes_y1 := r1.total_votes
    winner_y1 := r1.winner
    dem_share_y2 := r2.dem_share
    rep_share_y2 := r2.rep_share
    dem_votes_y2 := r2.dem_votes
    rep_votes_y2 := r2.rep_votes
    total_votes_y2 := r2.total_votes
    winner_y2 := r2.winner
    swing := r2.dem_share - r1.dem_share
    margin_change := (r2.dem_share - r2.rep_share) - (r1.dem_share - r1.rep_share)
    swing_magnitude := |r2.dem_share - r1.dem_share|
    swing_direction :=
      if 0 < r2.dem_share - r1.dem_share then sDEMOCRAT
      else if r2.dem_share - r1.dem_share < 0 then sREPUBLICAN
      else sNO_CHANGE
    flipped := decide (r1.winner ≠ r2.winner)
    flip_direction :=
      if r1.winner ≠ r2.winner then r1.winner ++ "_to_" ++ r2.winner else sNO_FLIP
    turnout_change := (r2.total_votes : ℤ) - (r1.total_votes : ℤ)
    turnout_change_pct :=
      if r1.total_votes = 0 then none
      else some (round2 (((r2.total_votes : ℚ) - (r1.total_votes : ℚ)) /
        (r1.total_votes : ℚ) * 100))
    year1 := year1
    year2 := year2
    period := toString year1 ++ "_" ++ toString year2 }

/-- Inner merge of the two cycle tables on fips (pandas merge how=inner):
every pair of rows with equal keys, left order outermost. -/
def innerJoinFips (y1 y2 : List ElectionRow) : List (ElectionRow × ElectionRow) :=
  y1.flatMap
    (fun r1 => (y2.filter (fun r2 => decide (r2.fips = r1.fips))).map (fun r2 => (r1, r2)))

def dupFipsMsg : String := "Duplicate FIPS codes detected in merge"

/-- Function calculate_two_party_swing (04_calculate_swings.py lines
86-227): merge on fips, then the defensive check of lines 144-147 raises
ValueError when the merge produced more rows than the larger input;
otherwise the full swing table is computed row-wise. -/
def calculate_two_party_swing (y1 y2 : List ElectionRow) (year1 year2 : ℤ) :
    Except String (List SwingRow) :=
  let joined := innerJoinFips y1 y2
  if max y1.length y2.length < joined.length then Except.error dupFipsMsg
  else Except.ok (joined.map (fun p => mkSwingRow p.1 p.2 year1 year2))

/-- C3: the swing calculator raises before producing output whenever the
inner join yields more rows than the larger input, and every swing table it
does return has at most max(len year1, len year2) rows. -/
theorem swing_join_integrity :
    (∀ (y1 y2 : List ElectionRow) (yr1 yr2 : ℤ) (t : List SwingRow),
      calculate_two_party_swing y1 y2 yr1 yr2 = Except.ok t →
      t.length ≤ max y1.length y2.length) ∧
    (∀ (y1 y2 : List ElectionRow) (yr1 yr2 : ℤ),
      max y1.length y2.length < (innerJoinFips y1 y2).length →
      calculate_two_party_swing y1 y2 yr1 yr2 = Except.error dupFipsMsg) := by
  constructor
  · intro y1 y2 yr1 yr2 t ht
    simp only [calculate_two_party_swing] at ht
    by_cases hlen : max y1.length y2.length < (innerJoinFips y1 y2).length
    · rw [if_pos hlen] at ht
      exact Except.noConfusion ht
    · rw [if_neg hlen] at ht
      have hts := Except.ok.inj ht
      rw [← hts, List.length_map]
      omega
  · intro y1 y2 yr1 yr2 h
    simp only [calculate_two_party_swing]
    rw [if_pos h]

/-- Sample county rows used by the swing witnesses. -/
def exRowA : ElectionRow :=
  { fips := 1001, county := "AUTAUGA", state := "ALABAMA", state_po := "AL",
    dem_share := 27, rep_share := 73, dem_votes := 216, rep_votes := 584,
    total_votes := 800, winner := sREPUBLICAN }

def exRowB : ElectionRow :=
  { fips := 1001, county := "AUTAUGA", state := "ALABAMA", state_po := "AL",
    dem_share := 30, rep_share := 70, dem_votes := 300, rep_votes := 700,
    total_votes := 1000, winner := sREPUBLICAN }

def exRow0 : ElectionRow :=
  { fips := 2001, county := "EMPTY", state := "ALASKA", state_po := "AK",
    dem_share := 0, rep_share := 0, dem_votes := 0, rep_votes := 0,
    total_votes := 0, winner := sREPUBLICAN }

def exRow0b : ElectionRow :=
  { fips := 2001, county := "EMPTY", state := "ALASKA", state_po := "AK",
    dem_share := 50, rep_share := 50, dem_votes := 500, rep_votes := 500,
    total_votes := 1000, winner := sREPUBLICAN }

/-- C3 witness: the bound instantiated on a concrete one-row pair that the
calculator accepts. -/
theorem swing_join_integrity_witness :
    ((innerJoinFips [exRowA] [exRowB]).map (fun p => mkSwingRow p.1 p.2 2016 2020)).length
      ≤ max (List.length [exRowA]) (List.length [exRowB]) :=
  swing_join_integrity.1 [exRowA] [exRowB] 2016 2020 _ rfl

/-- C4: in every returned swing table, turnout_change_pct is none exactly
for the rows whose year-1 total is zero, and otherwise carries the rounded
percentage change computed from that row alone. -/
theorem turnout_change_pct_policy :
    ∀ (y1 y2 : List ElectionRow) (yr1 yr2 : ℤ) (t : List SwingRow),
      calculate_two_party_swing y1 y2 yr1 yr2 = Except.ok t →
      ∀ row ∈ t,
        (row.turnout_change_pct = none ↔ row.total_votes_y1 = 0) ∧
        (row.total_votes_y1 ≠ 0 →
          row.turnout_change_pct =
            some (round2 (((row.total_votes_y2 : ℚ) - (row.total_votes_y1 : ℚ)) /
              (row.total_votes_y1 : ℚ) * 100))) := by
  intro y1 y2 yr1 yr2 t ht row hrow
  simp only [calculate_two_party_swing] at ht
  by_cases hlen : max y1.length y2.length < (innerJoinFips y1 y2).length
  · rw [if_pos hlen] at ht
    exact Except.noConfusion ht
  · rw [if_neg hlen] at ht
    have hts := Except.ok.inj ht
    rw [← hts] at hrow
    obtain ⟨p, hp, hpe⟩ := List.mem_map.mp hrow
    rw [← hpe]
    constructor
    · constructor
      · intro hnone
        by_contra h0
        simp only [mkSwingRow] at hnone h0
        rw [if_neg h0] at hnone
        exact Option.noConfusion hnone
      · intro h0
        simp only [mkSwingRow] at h0 ⊢
        rw [if_pos h0]
    · intro hne
      simp only [mkSwingRow] at hne ⊢
      rw [if_neg hne]

/-- C4 witness: a zero-vote year-1 county gets none while a normal county in
the same table gets its own rounded percentage, 25 for 800 to 1000 votes. -/
theorem turnout_change_pct_policy_witness :
    (mkSwingRow exRow0 exRow0b 2016 2020).turnout_change_pct = none ∧
    (mkSwingRow exRowA exRowB 2016 2020).turnout_change_pct = some 25 := by
  have h0 := turnout_change_pct_policy [exRow0] [exRow0b] 2016 2020 _ rfl
  have hA := turnout_change_pct_policy [exRowA] [exRowB] 2016 2020 _ rfl
  have hmem0 : mkSwingRow exRow0 exRow0b 2016 2020 ∈
      (innerJoinFips [exRow0] [exRow0b]).map (fun p => mkSwingRow p.1 p.2 2016 2020) := by
    simp only [innerJoinFips, List.mem_map]
    exact ⟨(exRow0, exRow0b), by decide, rfl⟩
  have hmemA : mkSwingRow exRowA exRowB 2016 2020 ∈
      (innerJoinFips [exRowA] [exRowB]).map (fun p => mkSwingRow p.1 p.2 2016 2020) := by
    simp only [innerJoinFips, List.mem_map]
    exact ⟨(exRowA, exRowB), by decide, rfl⟩
  constructor
  · exact (h0 _ hmem0).1.mpr rfl
  · have h2 := (hA _ hmemA).2 (by decide)
    rw [h2]
    have hv2 : ((mkSwingRow exRowA exRowB 2016 2020).total_votes_y2 : ℚ) = 1000 := by
      simp [mkSwingRow, exRowB]
    have hv1 : ((mkSwingRow exRowA exRowB 2016 2020).total_votes_y1 : ℚ) = 800 := by
      simp [mkSwingRow, exRowA]
    rw [hv1, hv2]
    have h25 : ((1000 : ℚ) - 800) / 800 * 100 = 25 := by norm_num
    rw [h25]
    unfold round2
    have h2500 : (25 : ℚ) * 100 = ((2500 : ℤ) : ℚ) := by norm_num
    rw [h2500, rhe_intCast]
    norm_num

/- ========================================================================
   Loader dedup (04_calculate_swings.py, load_election_year lines 47-79):
   duplicate fips rows are dropped keeping the first occurrence, before any
   swing computation.
   ======================================================================== -/

/-- Worker of the dedup: drop every row whose fips was already seen. -/
def dropDupFipsGo (seen : List ℕ) : List ElectionRow → List ElectionRow
  | [] => []
  | r :: rest =>
    if r.fips ∈ seen then dropDupFipsGo seen rest
    else r :: dropDupFipsGo (r.fips :: seen) rest

/-- Models df.drop_duplicates(subset=fips, keep=first). -/
def dropDupFips (rows : List ElectionRow) : List ElectionRow := dropDupFipsGo [] rows

theorem dropDupFipsGo_sublist (rows : List ElectionRow) :
    ∀ seen, List.Sublist (dropDupFipsGo seen rows) rows := by
  induction rows with
  | nil => intro seen; simp [dropDupFipsGo]
  | cons r rest ih =>
    intro seen
    simp only [dropDupFipsGo]
    by_cases h : r.fips ∈ seen
    · rw [if_pos h]
      exact (ih seen).cons r
    · rw [if_neg h]
      exact (ih (r.fips :: seen)).cons₂ r

theorem dropDupFipsGo_spec (rows : List ElectionRow) :
    ∀ seen,
      ((dropDupFipsGo seen rows).map (fun r => r.fips)).Nodup ∧
      (∀ f, f ∈ (dropDupFipsGo seen rows).map (fun r => r.fips) ↔
        (f ∈ rows.map (fun r => r.fips) ∧ f ∉ seen)) := by
  induction rows with
  | nil => intro seen; simp [dropDupFipsGo]
  | cons r rest ih =>
    intro seen
    by_cases h : r.fips ∈ seen
    · simp only [dropDupFipsGo, if_pos h]
      obtain ⟨ih1, ih2⟩ := ih seen
      refine ⟨ih1, fun f => ?_⟩
      rw [ih2 f]
      simp only [List.map_cons, List.mem_cons]
      constructor
      · rintro ⟨hf, hns⟩
        exact ⟨Or.inr hf, hns⟩
      · rintro ⟨hf | hf, hns⟩
        · exact absurd (hf ▸ h) hns
        · exact ⟨hf, hns⟩
    · simp only [dropDupFipsGo, if_neg h]
      obtain ⟨ih1, ih2⟩ := ih (r.fips :: seen)
      constructor
      · simp only [List.map_cons, List.nodup_cons]
        refine ⟨fun hmem => ?_, ih1⟩
        exact ((ih2 r.fips).mp hmem).2 (List.mem_cons_self _ _)
      · intro f
        simp only [List.map_cons, List.mem_cons, ih2 f, List.mem_cons]
        constructor
        · rintro (rfl | ⟨hf, hns⟩)
          · exact ⟨Or.inl rfl, h⟩
          · exact ⟨Or.inr hf, fun hs => hns (Or.inr hs)⟩
        · rintro ⟨rfl | hf, hns⟩
          · exact Or.inl rfl
          · by_cases hfr : f = r.fips
            · exact Or.inl hfr
            · exact Or.inr ⟨hf, fun hs => (hs.elim hfr hns : False)⟩

theorem filter_fips_length_le_one (l : List ElectionRow) (k : ℕ)
    (h : ((l.map (fun r => r.fips)).Nodup)) :
    (l.filter (fun r => decide (r.fips = k))).length ≤ 1 := by
  induction l with
  | nil => simp
  | cons r rest ih =>
    simp only [List.map_cons, List.nodup_cons] at h
    by_cases hk : r.fips = k
    · have hrest : rest.filter (fun x => decide (x.fips = k)) = [] := by
        rw [List.filter_eq_nil_iff]
        intro a ha
        simp only [decide_eq_true_eq]
        intro hak
        exact h.1 (List.mem_map.mpr ⟨a, ha, by rw [hak, hk]⟩)
      rw [List.filter_cons_of_pos (by simp [hk]), hrest]
      simp
    · rw [List.filter_cons_of_neg (by simp [hk])]
      exact ih h.2

theorem innerJoin_length_le_left (y1 y2 : List ElectionRow)
    (h2 : ((y2.map (fun r => r.fips)).Nodup)) :
    (innerJoinFips y1 y2).length ≤ y1.length := by
  induction y1 with
  | nil => simp [innerJoinFips]
  | cons r rest ih =>
    have h1 := filter_fips_length_le_one y2 r.fips h2
    simp only [innerJoinFips, List.flatMap_cons, List.length_append, List.length_map,
      List.length_cons] at ih ⊢
    omega

/-- Sample rows sharing a fips code, with different payloads, for the dedup
witness conjunct. -/
def dupRowFirst : ElectionRow :=
  { fips := 29189, county := "FIRST", state := "MISSOURI", state_po := "MO",
    dem_share := 60, rep_share := 40, dem_votes := 600, rep_votes := 400,
    total_votes := 1000, winner := sDEMOCRAT }

def dupRowSecond : ElectionRow :=
  { fips := 29189, county := "SECOND", state := "MISSOURI", state_po := "MO",
    dem_share := 40, rep_share := 60, dem_votes := 400, rep_votes := 600,
    total_votes := 1000, winner := sREPUBLICAN }

/-- C9: tables produced by the loader dedup have pairwise-distinct fips, the
result is a subsequence of the input containing every input fips, the first
occurrence of a duplicated fips is the one kept, and on two deduped tables
the swing calculator can never hit its fan-out join error. -/
theorem load_election_year_dedup (rows y1 y2 : List ElectionRow) (yr1 yr2 : ℤ) :
    ((dropDupFips rows).map (fun r => r.fips)).Nodup ∧
    List.Sublist (dropDupFips rows) rows ∧
    (∀ f, f ∈ (dropDupFips rows).map (fun r => r.fips) ↔
      f ∈ rows.map (fun r => r.fips)) ∧
    dropDupFips [dupRowFirst, dupRowSecond] = [dupRowFirst] ∧
    ∃ t, calculate_two_party_swing (dropDupFips y1) (dropDupFips y2) yr1 yr2 =
      Except.ok t := by
  obtain ⟨hnd, hmem⟩ := dropDupFipsGo_spec rows []
  refine ⟨hnd, dropDupFipsGo_sublist rows [], ?_, by decide, ?_⟩
  · intro f
    rw [dropDupFips, hmem f]
    simp
  · have hnd2 := (dropDupFipsGo_spec y2 []).1
    have hlen := innerJoin_length_le_left (dropDupFips y1) (dropDupFips y2) hnd2
    refine ⟨(innerJoinFips (dropDupFips y1) (dropDupFips y2)).map
      (fun p => mkSwingRow p.1 p.2 yr1 yr2), ?_⟩
    simp only [calculate_two_party_swing]
    rw [if_neg (by omega)]

/- ========================================================================
   Exit codes of the batch drivers (C8).
   ======================================================================== -/

/-- Exit-code rule of the year-batch drivers: 02_clean_elections.py main
line 615 and 05_merge_data.py main line 622 both return 0 exactly when
every unit of work in the results list succeeded, else 1. -/
def batch_exit_code (results : List Bool) : ℕ :=
  if results.all (fun b => b) then 0 else 1

/-- Driver loop of 04_calculate_swings.py main in the --all branch (lines
470-518): each cycle pair is processed inside a try that catches the
failure, logs it and continues, appending only the successes; after the
loop main falls through to return 0 with no check of the recorded
failures. -/
def swings_all_exit {α : Type} (pairs : List (ℤ × ℤ))
    (process : ℤ → ℤ → Except String α) : ℕ :=
  let _collected := pairs.foldl
    (fun acc p =>
      match process p.1 p.2 with
      | Except.ok r => acc ++ [r]
      | Except.error _ => acc) ([] : List α)
  0

/-- A per-pair processor that always fails, standing for a cycle pair whose
input file is missing or whose join check raised. -/
def failingProcess : ℤ → ℤ → Except String Unit := fun _ _ => Except.error dupFipsMsg

/-- C8 counterexample: in the swing stage an --all batch whose only cycle
pair failed still exits with code 0, not 1. -/
theorem swing_batch_exit_zero_on_failure :
    failingProcess 2016 2020 = Except.error dupFipsMsg ∧
    swings_all_exit [(2016, 2020)] failingProcess = 0 ∧
    swings_all_exit [(2016, 2020)] failingProcess ≠ 1 :=
  ⟨rfl, rfl, by decide⟩

/-- C8 amended: the clean-elections and merge drivers exit 0 exactly on
full success and 1 exactly when some unit of work failed, while the swing
batch driver in --all mode always exits 0 once its loop completes, even
when cycle pairs failed. -/
theorem exit_code_policy :
    (∀ results : List Bool, batch_exit_code results = 0 ↔
      results.all (fun b => b) = true) ∧
    (∀ results : List Bool, batch_exit_code results = 1 ↔
      results.all (fun b => b) = false) ∧
    (∀ (α : Type) (pairs : List (ℤ × ℤ)) (process : ℤ → ℤ → Except String α),
      swings_all_exit pairs process = 0) := by
  refine ⟨?_, ?_, ?_⟩
  · intro results
    unfold batch_exit_code
    by_cases h : results.all (fun b => b) = true
    · rw [if_pos h]
      simp [h]
    · rw [if_neg h]
      simp [h]
  · intro results
    unfold batch_exit_code
    by_cases h : results.all (fun b => b) = true
    · rw [if_pos h]
      simp [h]
    · rw [if_neg h]
      simp only [eq_self_iff_true, true_iff]
      exact Bool.not_eq_true _ |>.mp h
  · intro α pairs process
    rfl

/- ========================================================================
   County-name normalization, embedded at the character level.
   Two distinct normalizers exist in the repository:
   - fix_2024_fips.py normalize_county_name (lines 30-79)
   - utils/county_matcher.py normalize_county_name (lines 43-73)
   All inputs are ASCII; Python str.upper, str.strip, str.replace, re.sub
   and str.split are modelled below on lists of characters, with fuel
   arguments bounded by the input length standing in for the regex engine
   loops.
   ======================================================================== -/

/-- ASCII uppercase, Char.toUpper on the ASCII county names. -/
def upperChar (c : Char) : Char := c.toUpper

/-- Python whitespace for the characters that occur in county names. -/
def isWsChar (c : Char) : Bool := c == ' ' || c == '\t' || c == '\n' || c == '\r'

/-- Python str.strip on both ends. -/
def trimWs (l : List Char) : List Char :=
  ((l.dropWhile isWsChar).reverse.dropWhile isWsChar).reverse

/-- Worker for replaceAll, fuel bounded by the input length. -/
def replaceAllFuel (pat rep : List Char) : ℕ → List Char → List Char
  | 0, l => l
  | _ + 1, [] => []
  | fuel + 1, c :: rest =>
    if pat ≠ [] ∧ pat.isPrefixOf (c :: rest) then
      rep ++ replaceAllFuel pat rep fuel ((c :: rest).drop pat.length)
    else
      c :: replaceAllFuel pat rep fuel rest

/-- Python str.replace: every non-overlapping occurrence, left to right. -/
def replaceAll (pat rep l : List Char) : List Char := replaceAllFuel pat rep l.length l

/-- One suffix-strip step of the Python loops: when the name ends with the
suffix, cut it and strip. -/
def stripSuffix1 (sfx l : List Char) : List Char :=
  if sfx.isSuffixOf l then trimWs (l.take (l.length - sfx.length)) else l

/-- The Python for-loop over a suffix list, re-testing the updated name at
each step. -/
def stripSuffixes (sfxs : List (List Char)) (l : List Char) : List Char :=
  sfxs.foldl (fun acc s => stripSuffix1 s acc) l

/-- Worker for collapseWs. -/
def collapseWsFuel : ℕ → List Char → List Char
  | 0, l => l
  | _ + 1, [] => []
  | fuel + 1, c :: rest =>
    if isWsChar c then ' ' :: collapseWsFuel fuel (rest.dropWhile isWsChar)
    else c :: collapseWsFuel fuel rest

/-- The whitespace collapse re.sub of one or more whitespace to one space. -/
def collapseWs (l : List Char) : List Char := collapseWsFuel l.length l

def districtPat : List Char := "DISTRICT".data

def districtRep : List Char := "DISTRICT ".data

/-- One attempted match of the Alaska-district pattern DISTRICT, whitespace,
a zero, then captured digits; returns the captured digits and the rest. -/
def matchDistrict (l : List Char) : Option (List Char × List Char) :=
  if districtPat.isPrefixOf l then
    let l1 := l.drop districtPat.length
    if (l1.takeWhile isWsChar).isEmpty then none
    else
      match l1.dropWhile isWsChar with
      | '0' :: t =>
        let digits := t.takeWhile (fun c => c.isDigit)
        if digits.isEmpty then none else some (digits, t.drop digits.length)
      | _ => none
  else none

/-- Worker for districtSub. -/
def districtSubFuel : ℕ → List Char → List Char
  | 0, l => l
  | _ + 1, [] => []
  | fuel + 1, c :: rest =>
    match matchDistrict (c :: rest) with
    | some (digits, remaining) => districtRep ++ digits ++ districtSubFuel fuel remaining
    | none => c :: districtSubFuel fuel rest

/-- The re.sub dropping the leading zero of numeric district labels:
DISTRICT 01 becomes DISTRICT 1. -/
def districtSub (l : List Char) : List Char := districtSubFuel l.length l

/-- Python substring test (the in operator): the pattern occurs as a
contiguous run. -/
def isInfixOfL (pat : List Char) : List Char → Bool
  | [] => pat.isEmpty
  | c :: rest => pat.isPrefixOf (c :: rest) || isInfixOfL pat rest

def stDotPat : List Char := "ST.".data

def stPat : List Char := "ST".data

def steDotPat : List Char := "STE.".data

def stePat : List Char := "STE".data

def saintPat : List Char := "SAINT ".data

def stSpacePat : List Char := "ST ".data

/-- The spacing_fixes table of fix_2024_fips.py, in source order. -/
def spacingFixes : List (List Char × List Char) :=
  [(r"DE WITT".data, r"DEWITT".data),
   (r"DE KALB".data, r"DEKALB".data),
   (r"JO DAVIESS".data, r"JODAVIESS".data),
   (r"LA SALLE".data, r"LASALLE".data),
   (r"DU PAGE".data, r"DUPAGE".data)]

/-- The preserve_city_county list: base names where a city and a county
coexist, tested as substrings. -/
def preserveCityCounty : List (List Char) :=
  [r"BALTIMORE".data, r"ST LOUIS".data, r"FAIRFAX".data,
   r"FRANKLIN".data, r"RICHMOND".data, r"ROANOKE".data]

/-- Suffixes stripped on the preserve list: only the weak jurisdictional
ones. -/
def fixSuffixesPreserve : List (List Char) :=
  [r" PARISH".data, r" BOROUGH".data, r" CENSUS AREA".data]

/-- Suffixes stripped for every other name. -/
def fixSuffixesAll : List (List Char) :=
  [r" COUNTY".data, r" PARISH".data, r" BOROUGH".data, r" CENSUS AREA".data, r" CITY".data]

/-- Function normalize_county_name of fix_2024_fips.py (lines 30-79):
uppercase and strip, normalize the ST. and STE. punctuation, expand SAINT to
ST, fix the district zero padding, apply the spacing table, collapse
whitespace, then strip suffixes, keeping COUNTY and CITY for the names on
the preserve list. -/
def normalize_county_name_fix2024 (name : String) : String :=
  let n0 := trimWs (name.data.map upperChar)
  let n1 := replaceAll stDotPat stPat n0
  let n2 := replaceAll steDotPat stePat n1
  let n3 := replaceAll saintPat stSpacePat n2
  let n4 := districtSub n3
  let n5 := spacingFixes.foldl (fun acc p => replaceAll p.1 p.2 acc) n4
  let n6 := collapseWs n5
  let n7 :=
    if preserveCityCounty.any (fun pc => isInfixOfL pc n6) then
      stripSuffixes fixSuffixesPreserve n6
    else
      stripSuffixes fixSuffixesAll n6
  ⟨n7⟩

/-- The suffix list of county_matcher.py normalize_county_name, in source
order. -/
def matcherSuffixes : List (List Char) :=
  [r" COUNTY".data, r" PARISH".data, r" BOROUGH".data, r" CENSUS AREA".data,
   r" MUNICIPALITY".data, r" CITY".data, r" CITY AND BOROUGH".data]

/-- Characters kept by the special-character removal regex of
county_matcher.py: A-Z, 0-9 and whitespace. -/
def isAllowedChar (c : Char) : Bool :=
  (decide ('A' ≤ c ∧ c ≤ 'Z')) || (decide ('0' ≤ c ∧ c ≤ '9')) || isWsChar c

/-- Worker for splitWs. -/
def splitWsFuel : ℕ → List Char → List (List Char)
  | 0, _ => []
  | fuel + 1, l =>
    let l1 := l.dropWhile isWsChar
    if l1.isEmpty then []
    else
      (l1.takeWhile (fun c => !(isWsChar c))) ::
        splitWsFuel fuel (l1.dropWhile (fun c => !(isWsChar c)))

/-- Python str.split with no argument: whitespace-separated tokens, empties
dropped. -/
def splitWs (l : List Char) : List Char → List (List Char) :=
  fun x => splitWsFuel (l.length + 1) x

/-- Function normalize_county_name of utils/county_matcher.py (lines 43-73):
uppercase and strip, strip the suffix list, drop special characters, and
rejoin the whitespace-split tokens with single spaces. Note that this
normalizer performs no SAINT expansion. -/
def normalize_county_name_matcher (name : String) : String :=
  let n0 := trimWs (name.data.map upperChar)
  let n1 := stripSuffixes matcherSuffixes n0
  let n2 := n1.filter isAllowedChar
  let n3 := List.intercalate ([' '] : List Char) (splitWs n2 n2)
  ⟨n3⟩

def inStLouisCounty : String := "ST. LOUIS COUNTY"

def inSaintLouis : String := "SAINT LOUIS"

def inStLouisDot : String := "ST. LOUIS"

def inSaintLouisCounty : String := "SAINT LOUIS COUNTY"

def inStLouisCity : String := "ST LOUIS CITY"

def inPolkCounty : String := "POLK COUNTY"

def inPolk : String := "POLK"

/-- C5 counterexample: the two spec inputs do NOT get identical match keys
under either normalizer. fix_2024_fips keeps the COUNTY suffix because ST
LOUIS is on the preserve list, so only the suffix-free input loses it; the
county_matcher normalizer has no SAINT expansion at all. -/
theorem stlouis_keys_differ :
    normalize_county_name_fix2024 inStLouisCounty = "ST LOUIS COUNTY" ∧
    normalize_county_name_fix2024 inSaintLouis = "ST LOUIS" ∧
    normalize_county_name_fix2024 inStLouisCounty ≠ normalize_county_name_fix2024 inSaintLouis ∧
    normalize_county_name_matcher inStLouisCounty = "ST LOUIS" ∧
    normalize_county_name_matcher inSaintLouis = "SAINT LOUIS" ∧
    normalize_county_name_matcher inStLouisCounty ≠ normalize_county_name_matcher inSaintLouis := by
  refine ⟨?_, ?_, ?_, ?_, ?_, ?_⟩ <;> decide

/-- C5 amended: the SAINT and ST. spellings are unified to the same base
key, so inputs carrying the same suffix match exactly; the preserve list
retains the COUNTY and CITY suffixes for the ST LOUIS base, keeping the
city and the county distinct, while an off-list name such as POLK loses its
COUNTY suffix entirely. -/
theorem stlouis_normalization_amended :
    normalize_county_name_fix2024 inSaintLouis = "ST LOUIS" ∧
    normalize_county_name_fix2024 inStLouisDot = "ST LOUIS" ∧
    normalize_county_name_fix2024 inStLouisCounty = "ST LOUIS COUNTY" ∧
    normalize_county_name_fix2024 inSaintLouisCounty =
      normalize_county_name_fix2024 inStLouisCounty ∧
    normalize_county_name_fix2024 inStLouisCity = "ST LOUIS CITY" ∧
    normalize_county_name_fix2024 inStLouisCity ≠
      normalize_county_name_fix2024 inStLouisCounty ∧
    normalize_county_name_fix2024 inPolkCounty = normalize_county_name_fix2024 inPolk := by
  refine ⟨?_, ?_, ?_, ?_, ?_, ?_, ?_⟩ <;> decide

end SwingViz
